import Mathlib

set_option linter.unusedVariables false
set_option linter.unreachableTactic false
set_option linter.unusedTactic false
set_option linter.unusedSectionVars false
set_option linter.unnecessarySeqFocus false

/-!
Verification of the `TextureAtlas` component of cocos2d-x
(`cocos/renderer/CCTextureAtlas.h`).

The repository ships only the class declaration; the member function
bodies live outside the provided sources.  Every operation below is
therefore modelled from the specification's description of its
behaviour, over a shallow state embedding:

* the host-side quad storage is a `List Q` whose length is the atlas
  capacity (`_quadCapacity` always equals the number of reserved slots);
* the GPU vertex buffer is a second `List Q` (`gpuQuads`);
* the GPU index buffer is a `List (List Nat)`, one 6-index run per slot;
* `quadCount` is `_quadCount`, `dirty` the VBO synchronisation flag.

Quad contents are opaque (`Q` is a type parameter with a designated
"empty/zeroed" quad `default`): the claims are about slot arithmetic,
ordering and byte-for-byte preservation, never about vertex data.
-/

/-- A GPU indexed-draw submission: how many indices are drawn, at which
index-buffer offset, with which texture bound. -/
structure DrawCmd where
  indexCount : Nat
  indexOffset : Nat
  textureId : Nat
deriving DecidableEq, Repr

/-- Modelled from the spec: the state of a `TextureAtlas` (fields
`_texture`, `_quadCount` and the quad/vertex/index buffer contents of
`_vdAtlas`/`_vbAtlas`/`_ibAtlas`; `_quadCapacity` is `quads.length`). -/
structure TextureAtlas (Q : Type) where
  texture : Nat
  quads : List Q
  gpuQuads : List Q
  indexRuns : List (List Nat)
  quadCount : Nat
  dirty : Bool
deriving DecidableEq, Repr

namespace TextureAtlas

variable {Q : Type} [Inhabited Q]

/-- Gets the quantity of quads that are going to be drawn (`_quadCount`). -/
def getTotalQuads (a : TextureAtlas Q) : Nat := a.quadCount

/-- Gets the quantity of quads that can be stored (`_quadCapacity`): the
number of reserved slots. -/
def getCapacity (a : TextureAtlas Q) : Nat := a.quads.length

/-- Whether the array buffer of the VBO needs to be updated. -/
def isDirty (a : TextureAtlas Q) : Bool := a.dirty

/-- Specify if the array buffer of the VBO needs to be updated. -/
def setDirty (a : TextureAtlas Q) (b : Bool) : TextureAtlas Q :=
  { a with dirty := b }

/-- The 6-index run for quad slot `i`: two triangles over the slot's four
vertices, `4i, 4i+1, 4i+2, 4i+2, 4i+3, 4i+1`. -/
def quadIndexRun (i : Nat) : List Nat :=
  [4 * i, 4 * i + 1, 4 * i + 2, 4 * i + 2, 4 * i + 3, 4 * i + 1]

/-- Modelled from the spec: `setupIndices(count, begin)` (body not in the
provided sources).  For each quad slot `i` in `[begin, begin+count)` it
writes the run `quadIndexRun i` into index slot `i` of the buffer. -/
def setupIndices (buf : List (List Nat)) (count bgn : Nat) : List (List Nat) :=
  match count with
  | 0 => buf
  | c + 1 => setupIndices (buf.set bgn (quadIndexRun bgn)) c (bgn + 1)

/-- Modelled from the spec: `initWithTexture(texture, capacity)` (body not
in the provided sources).  Allocates `capacity` slots host- and GPU-side,
sets `count = 0`, builds the index buffer for the full capacity and marks
the atlas dirty. -/
def initWithTexture (tex cap : Nat) : TextureAtlas Q :=
  { texture := tex
    quads := List.replicate cap default
    gpuQuads := List.replicate cap default
    indexRuns := setupIndices (List.replicate cap []) cap 0
    quadCount := 0
    dirty := true }

/-- Modelled from the spec: `updateQuad(quad, index)` (body not in the
provided sources).  Overwrites slot `index` and marks the atlas dirty;
`count` is unchanged. -/
def updateQuad (a : TextureAtlas Q) (q : Q) (index : Nat) : TextureAtlas Q :=
  { a with quads := a.quads.set index q, dirty := true }

/-- Modelled from the spec: `insertQuad(quad, index)` (body not in the
provided sources).  Shifts the quads at positions `[index, count)` one
slot to the right, writes `quad` at `index`, increments `count` and marks
the atlas dirty.  (The capacity-growth path is not triggered under the
claims' precondition `count < capacity` and is not modelled.) -/
def insertQuad (a : TextureAtlas Q) (q : Q) (index : Nat) : TextureAtlas Q :=
  { a with
    quads := a.quads.take index ++ q :: (a.quads.drop index).take (a.quadCount - index)
      ++ a.quads.drop (a.quadCount + 1)
    quadCount := a.quadCount + 1
    dirty := true }

/-- Modelled from the spec: `insertQuads(quads, index, amount)` (body not
in the provided sources).  Bulk form of `insertQuad`: shifts the quads at
`[index, count)` right by `amount`, writes the given quads at `index`,
advances `count` by `amount`; it never enlarges the storage (caller
precondition `count + amount <= capacity`). -/
def insertQuads (a : TextureAtlas Q) (qs : List Q) (index : Nat) : TextureAtlas Q :=
  { a with
    quads := a.quads.take index ++ qs ++ (a.quads.drop index).take (a.quadCount - index)
      ++ a.quads.drop (a.quadCount + qs.length)
    quadCount := a.quadCount + qs.length
    dirty := true }

/-- Modelled from the spec: `insertQuadFromIndex(fromIndex, newIndex)`
(body not in the provided sources).  Removes the quad at `fromIndex` and
inserts it at `newIndex` as a single relocation, shifting only the
elements strictly between the two indices by one slot, in the direction
from `fromIndex` toward `newIndex`. -/
def insertQuadFromIndex (a : TextureAtlas Q) (fromIndex newIndex : Nat) : TextureAtlas Q :=
  let q := a.quads.getD fromIndex default
  if fromIndex < newIndex then
    { a with
      quads := a.quads.take fromIndex ++ (a.quads.drop (fromIndex + 1)).take (newIndex - fromIndex)
        ++ q :: a.quads.drop (newIndex + 1)
      dirty := true }
  else if newIndex < fromIndex then
    { a with
      quads := a.quads.take newIndex ++ q :: (a.quads.drop newIndex).take (fromIndex - newIndex)
        ++ a.quads.drop (fromIndex + 1)
      dirty := true }
  else
    { a with dirty := true }

/-- Modelled from the spec: `removeQuadAtIndex(index)` (body not in the
provided sources).  Shifts `[index+1, count)` left by one, decrements
`count`, clears the now-unused trailing slot to the empty quad, keeps
capacity, and marks the atlas dirty. -/
def removeQuadAtIndex (a : TextureAtlas Q) (index : Nat) : TextureAtlas Q :=
  { a with
    quads := a.quads.take index ++ (a.quads.drop (index + 1)).take (a.quadCount - index - 1)
      ++ default :: a.quads.drop a.quadCount
    quadCount := a.quadCount - 1
    dirty := true }

/-- Modelled from the spec: `removeQuadsAtIndex(index, amount)` (body not
in the provided sources).  Shifts `[index+amount, count)` left by
`amount` and decrements `count` by `amount`. -/
def removeQuadsAtIndex (a : TextureAtlas Q) (index amount : Nat) : TextureAtlas Q :=
  { a with
    quads := a.quads.take index
      ++ (a.quads.drop (index + amount)).take (a.quadCount - index - amount)
      ++ a.quads.drop (a.quadCount - amount)
    quadCount := a.quadCount - amount
    dirty := true }

/-- Modelled from the spec: `removeAllQuads()` (body not in the provided
sources).  Sets `count = 0`; capacity and the underlying slot storage are
untouched (slots are not cleared), no memory is freed. -/
def removeAllQuads (a : TextureAtlas Q) : TextureAtlas Q :=
  { a with quadCount := 0 }

/-- Modelled from the spec: `resizeCapacity(newCapacity)` (body not in the
provided sources).  `allocOk` stands for the outcome of the external
reallocation.  On success the storage is reallocated to `newCapacity`
slots, the first `min(count, newCapacity)` quads are copied over, `count`
is clamped to `newCapacity`, and the index buffer is regenerated for the
new capacity.  On failure the call reports `false` and leaves the atlas
with capacity 0. -/
def resizeCapacity (a : TextureAtlas Q) (newCap : Nat) (allocOk : Bool) :
    TextureAtlas Q × Bool :=
  if allocOk then
    ({ a with
        quads := a.quads.take (min a.quadCount newCap)
          ++ List.replicate (newCap - min a.quadCount newCap) default
        gpuQuads := List.replicate newCap default
        indexRuns := setupIndices (List.replicate newCap []) newCap 0
        quadCount := min a.quadCount newCap
        dirty := true }, true)
  else
    ({ a with
        quads := []
        gpuQuads := []
        indexRuns := []
        quadCount := 0
        dirty := true }, false)

/-- Modelled from the spec: `increaseTotalQuadsWith(amount)` (body not in
the provided sources).  Advances `count` by `amount` without writing quad
data (caller precondition `count + amount <= capacity`). -/
def increaseTotalQuadsWith (a : TextureAtlas Q) (amount : Nat) : TextureAtlas Q :=
  { a with quadCount := a.quadCount + amount }

/-- Modelled from the spec: `moveQuadsFromIndex(oldIndex, amount,
newIndex)` (body not in the provided sources).  Relocates the contiguous
run of `amount` quads starting at `oldIndex` so that it starts at
`newIndex`, shifting the intervening quads to fill the gap; `count` is
unchanged. -/
def moveQuadsFromIndex (a : TextureAtlas Q) (oldIndex amount newIndex : Nat) :
    TextureAtlas Q :=
  let run := (a.quads.drop oldIndex).take amount
  if newIndex < oldIndex then
    { a with
      quads := a.quads.take newIndex ++ run
        ++ (a.quads.drop newIndex).take (oldIndex - newIndex)
        ++ a.quads.drop (oldIndex + amount)
      dirty := true }
  else
    { a with
      quads := a.quads.take oldIndex
        ++ (a.quads.drop (oldIndex + amount)).take (newIndex - oldIndex)
        ++ run ++ a.quads.drop (newIndex + amount)
      dirty := true }

/-- Modelled from the spec: the two-argument overload
`moveQuadsFromIndex(index, newIndex)` (body not in the provided sources).
Moves the whole tail `[index, count)` so that it starts at `newIndex`;
it never enlarges the storage (caller precondition
`newIndex + (count - index) <= capacity`). -/
def moveQuadsFromIndexTail (a : TextureAtlas Q) (index newIndex : Nat) : TextureAtlas Q :=
  { a with
    quads := a.quads.take newIndex ++ (a.quads.drop index).take (a.quadCount - index)
      ++ a.quads.drop (newIndex + (a.quadCount - index))
    dirty := true }

/-- Modelled from the spec: `fillWithEmptyQuadsFromIndex(index, amount)`
(body not in the provided sources).  Blanks `amount` slots starting at
`index` with the empty quad. -/
def fillWithEmptyQuadsFromIndex (a : TextureAtlas Q) (index amount : Nat) : TextureAtlas Q :=
  { a with
    quads := a.quads.take index ++ List.replicate amount default
      ++ a.quads.drop (index + amount)
    dirty := true }

/-- Sets the texture for the texture atlas (shared reference rebinding). -/
def setTexture (a : TextureAtlas Q) (t : Nat) : TextureAtlas Q :=
  { a with texture := t }

/-- Sets the quads that are going to be rendered: replaces the raw backing
storage, bypassing dirty-tracking (the caller must call `setDirty`). -/
def setQuads (a : TextureAtlas Q) (qs : List Q) : TextureAtlas Q :=
  { a with quads := qs }

/-- Modelled from the spec: the two-argument overload
`drawNumberOfQuads(numberOfQuads, start)` (body not in the provided
sources).  Drawing zero quads issues no draw.  Otherwise: if dirty,
upload the host quad array to the GPU vertex buffer and clear the flag;
then issue an indexed draw of `6*n` indices at index offset `6*start`
with the bound texture. -/
def drawNumberOfQuadsFrom (a : TextureAtlas Q) (n start : Nat) :
    TextureAtlas Q × Option DrawCmd :=
  if n = 0 then (a, none)
  else
    let a2 := if a.dirty then { a with gpuQuads := a.quads, dirty := false } else a
    (a2, some { indexCount := 6 * n, indexOffset := 6 * start, textureId := a.texture })

/-- Modelled from the spec: the one-argument overload
`drawNumberOfQuads(n)` (body not in the provided sources): draws the
first `n` quads, i.e. `6*n` indices from the start of the index buffer,
after the same upload-if-dirty step. -/
def drawNumberOfQuads (a : TextureAtlas Q) (n : Nat) :
    TextureAtlas Q × Option DrawCmd :=
  if n = 0 then (a, none)
  else
    let a2 := if a.dirty then { a with gpuQuads := a.quads, dirty := false } else a
    (a2, some { indexCount := 6 * n, indexOffset := 0, textureId := a.texture })

/-- Modelled from the spec: `drawQuads()` (body not in the provided
sources), equivalent to `drawNumberOfQuads(count, 0)`. -/
def drawQuads (a : TextureAtlas Q) : TextureAtlas Q × Option DrawCmd :=
  drawNumberOfQuadsFrom a a.quadCount 0

end TextureAtlas

/-- One public call on the atlas (the labels of the atlas's step
relation).  Draw calls appear with their quad count/offset arguments;
return values of draw calls are discarded by `applyOp` and observed
through `TextureAtlas.drawNumberOfQuadsFrom` etc. directly. -/
inductive AtlasOp (Q : Type) where
  | updateQuad (q : Q) (index : Nat)
  | insertQuad (q : Q) (index : Nat)
  | insertQuads (qs : List Q) (index : Nat)
  | insertQuadFromIndex (fromIndex newIndex : Nat)
  | removeQuadAtIndex (index : Nat)
  | removeQuadsAtIndex (index amount : Nat)
  | removeAllQuads
  | resizeCapacity (newCap : Nat) (allocOk : Bool)
  | increaseTotalQuadsWith (amount : Nat)
  | moveQuadsFromIndex (oldIndex amount newIndex : Nat)
  | moveQuadsFromIndexTail (index newIndex : Nat)
  | fillWithEmptyQuadsFromIndex (index amount : Nat)
  | setDirty (b : Bool)
  | setTexture (t : Nat)
  | setQuads (qs : List Q)
  | drawNumberOfQuads (n : Nat)
  | drawNumberOfQuadsFrom (n start : Nat)
  | drawQuads
deriving DecidableEq, Repr

namespace TextureAtlas

variable {Q : Type} [Inhabited Q]

/-- The step function of the atlas: the state after one public call. -/
def applyOp (a : TextureAtlas Q) : AtlasOp Q → TextureAtlas Q
  | .updateQuad q i => a.updateQuad q i
  | .insertQuad q i => a.insertQuad q i
  | .insertQuads qs i => a.insertQuads qs i
  | .insertQuadFromIndex f n => a.insertQuadFromIndex f n
  | .removeQuadAtIndex i => a.removeQuadAtIndex i
  | .removeQuadsAtIndex i am => a.removeQuadsAtIndex i am
  | .removeAllQuads => a.removeAllQuads
  | .resizeCapacity c ok => (a.resizeCapacity c ok).1
  | .increaseTotalQuadsWith am => a.increaseTotalQuadsWith am
  | .moveQuadsFromIndex o am n => a.moveQuadsFromIndex o am n
  | .moveQuadsFromIndexTail i n => a.moveQuadsFromIndexTail i n
  | .fillWithEmptyQuadsFromIndex i am => a.fillWithEmptyQuadsFromIndex i am
  | .setDirty b => a.setDirty b
  | .setTexture t => a.setTexture t
  | .setQuads qs => a.setQuads qs
  | .drawNumberOfQuads n => (a.drawNumberOfQuads n).1
  | .drawNumberOfQuadsFrom n s => (a.drawNumberOfQuadsFrom n s).1
  | .drawQuads => a.drawQuads.1

/-- Whether the call is a mutating call of the quad-mutation API: a call
that writes the host-side quad array through the atlas's own mutation
interface.  `setQuads` is excluded because the spec documents it as
bypassing dirty-tracking; `removeAllQuads` and `increaseTotalQuadsWith`
only move the `count` boundary and write no quad data. -/
def isMutatingOp : AtlasOp Q → Bool
  | .updateQuad _ _ => true
  | .insertQuad _ _ => true
  | .insertQuads _ _ => true
  | .insertQuadFromIndex _ _ => true
  | .removeQuadAtIndex _ => true
  | .removeQuadsAtIndex _ _ => true
  | .resizeCapacity _ _ => true
  | .moveQuadsFromIndex _ _ _ => true
  | .moveQuadsFromIndexTail _ _ => true
  | .fillWithEmptyQuadsFromIndex _ _ => true
  | _ => false

/-- The documented precondition of each public call, in the state where
the call is made. -/
def precondOp (a : TextureAtlas Q) : AtlasOp Q → Prop
  | .updateQuad _ i => i < a.getCapacity
  | .insertQuad _ i => i ≤ a.quadCount ∧ a.quadCount < a.getCapacity
  | .insertQuads qs i => i ≤ a.quadCount ∧ a.quadCount + qs.length ≤ a.getCapacity
  | .insertQuadFromIndex f n => f < a.quadCount ∧ n < a.quadCount
  | .removeQuadAtIndex i => i < a.quadCount
  | .removeQuadsAtIndex i am => i + am ≤ a.quadCount
  | .removeAllQuads => True
  | .resizeCapacity _ _ => True
  | .increaseTotalQuadsWith am => a.quadCount + am ≤ a.getCapacity
  | .moveQuadsFromIndex o am n => o + am ≤ a.quadCount ∧ n + am ≤ a.quadCount
  | .moveQuadsFromIndexTail i n =>
      i ≤ a.quadCount ∧ n + (a.quadCount - i) ≤ a.getCapacity
  | .fillWithEmptyQuadsFromIndex i am => i + am ≤ a.getCapacity
  | .setDirty _ => True
  | .setTexture _ => True
  | .setQuads qs => qs.length = a.getCapacity
  | .drawNumberOfQuads n => n ≤ a.getCapacity
  | .drawNumberOfQuadsFrom n s => n + s ≤ a.getCapacity
  | .drawQuads => True

/-- The count/capacity invariant of the atlas. -/
def countInv (a : TextureAtlas Q) : Prop :=
  a.getTotalQuads ≤ a.getCapacity

theorem setupIndices_length (buf : List (List Nat)) (count b : Nat) :
    (setupIndices buf count b).length = buf.length := by
  induction count generalizing buf b with
  | zero => rfl
  | succ c ih => rw [setupIndices, ih, List.length_set]

theorem setupIndices_getElem?_lt (buf : List (List Nat)) (count b j : Nat)
    (hj : j < b) : (setupIndices buf count b)[j]? = buf[j]? := by
  induction count generalizing buf b with
  | zero => rfl
  | succ c ih =>
    rw [setupIndices, ih _ _ (Nat.lt_succ_of_lt hj),
      List.getElem?_set_ne (by omega)]

theorem setupIndices_getElem? (buf : List (List Nat)) (count b i : Nat)
    (h1 : b ≤ i) (h2 : i < b + count) (h3 : i < buf.length) :
    (setupIndices buf count b)[i]? = some (quadIndexRun i) := by
  induction count generalizing buf b with
  | zero => omega
  | succ c ih =>
    rw [setupIndices]
    rcases Nat.eq_or_lt_of_le h1 with rfl | hlt
    · rw [setupIndices_getElem?_lt _ _ _ _ (Nat.lt_succ_self b),
        List.getElem?_set_self h3]
    · exact ih _ _ hlt (by omega) (by simpa using h3)

/-- C1: for every capacity `C` and quad slot `i < C`, after the index
buffer has been set up for that capacity (at initialization), the 6-index
run for slot `i` is exactly `4i, 4i+1, 4i+2, 4i+2, 4i+3, 4i+1`; and
`setupIndices(count, begin)` writes this pattern for every slot in
`[begin, begin+count)`. -/
theorem setupIndices_writes_quad_index_runs (buf : List (List Nat))
    (count b i tex C j : Nat) (h1 : b ≤ i) (h2 : i < b + count)
    (h3 : i < buf.length) (hj : j < C) :
    (setupIndices buf count b)[i]?
        = some [4 * i, 4 * i + 1, 4 * i + 2, 4 * i + 2, 4 * i + 3, 4 * i + 1]
      ∧ (initWithTexture tex C : TextureAtlas Nat).indexRuns[j]?
        = some [4 * j, 4 * j + 1, 4 * j + 2, 4 * j + 2, 4 * j + 3, 4 * j + 1] := by
  constructor
  · rw [setupIndices_getElem? buf count b i h1 h2 h3, quadIndexRun]
  · rw [initWithTexture,
      setupIndices_getElem? _ C 0 j (Nat.zero_le j) (by omega) (by simpa using hj),
      quadIndexRun]

theorem setupIndices_writes_quad_index_runs_witness :
    (setupIndices (List.replicate 3 []) 3 0)[1]? = some [4, 5, 6, 6, 7, 5]
      ∧ (initWithTexture 7 2 : TextureAtlas Nat).indexRuns[0]?
        = some [0, 1, 2, 2, 3, 1] := by
  have h := setupIndices_writes_quad_index_runs (List.replicate 3 []) 3 0 1 7 2 0
    (by decide) (by decide) (by decide) (by decide)
  simpa using h

/-- C4: `resizeCapacity` reports success exactly when the external
reallocation succeeds; on failure it returns `false` and leaves the atlas
with capacity 0 (not the old and not a partial capacity). -/
theorem resizeCapacity_reports_allocation (a : TextureAtlas Q) (newCap : Nat)
    (allocOk : Bool) :
    (a.resizeCapacity newCap allocOk).2 = allocOk
      ∧ ((a.resizeCapacity newCap false).1.getCapacity = 0
        ∧ (a.resizeCapacity newCap false).2 = false) := by
  refine ⟨?_, by simp [resizeCapacity, getCapacity], by simp [resizeCapacity]⟩
  cases allocOk <;> simp [resizeCapacity]

omit [Inhabited Q] in
/-- C9: after `removeAllQuads()` the count is 0 while capacity, the slot
storage contents and the texture binding are unchanged (slots are not
cleared), and a subsequent `drawQuads()` issues no draw. -/
theorem removeAllQuads_keeps_storage_and_draws_nothing (a : TextureAtlas Q) :
    a.removeAllQuads.getTotalQuads = 0
      ∧ a.removeAllQuads.getCapacity = a.getCapacity
      ∧ a.removeAllQuads.quads = a.quads
      ∧ a.removeAllQuads.texture = a.texture
      ∧ a.removeAllQuads.drawQuads.2 = none
      ∧ a.removeAllQuads.drawQuads.1 = a.removeAllQuads := by
  refine ⟨rfl, rfl, rfl, rfl, ?_, ?_⟩ <;>
    simp [removeAllQuads, drawQuads, drawNumberOfQuadsFrom, getTotalQuads]

omit [Inhabited Q] in
/-- C10: for `n` within capacity, the single-argument overload
`drawNumberOfQuads(n)` is observationally equivalent to
`drawNumberOfQuads(n, 0)`: same final state and same issued draw
(`6*n` indices at index offset 0). -/
theorem drawNumberOfQuads_eq_drawFrom_zero (a : TextureAtlas Q) (n : Nat)
    (h : n ≤ a.getCapacity) :
    a.drawNumberOfQuads n = a.drawNumberOfQuadsFrom n 0 := by
  rw [drawNumberOfQuads, drawNumberOfQuadsFrom]

theorem drawNumberOfQuads_eq_drawFrom_zero_witness :
    (initWithTexture 5 4 : TextureAtlas Nat).drawNumberOfQuads 2
      = (initWithTexture 5 4 : TextureAtlas Nat).drawNumberOfQuadsFrom 2 0 :=
  drawNumberOfQuads_eq_drawFrom_zero (initWithTexture 5 4) 2 (by decide)

set_option maxHeartbeats 1600000 in
/-- C2: the invariant `0 <= count <= capacity` holds after construction
and is preserved by every public operation, given each operation's stated
precondition (`0 <= count` is automatic over `Nat`). -/
theorem count_le_capacity_invariant (tex cap : Nat) (a : TextureAtlas Q)
    (op : AtlasOp Q) (hinv : a.countInv) (hpre : a.precondOp op) :
    (initWithTexture tex cap : TextureAtlas Q).countInv
      ∧ (a.applyOp op).countInv := by
  constructor
  · simp [countInv, initWithTexture, getTotalQuads, getCapacity]
  · cases op <;>
      simp only [countInv, applyOp, updateQuad, insertQuad, insertQuads,
        insertQuadFromIndex, removeQuadAtIndex, removeQuadsAtIndex,
        removeAllQuads, resizeCapacity, increaseTotalQuadsWith,
        moveQuadsFromIndex, moveQuadsFromIndexTail,
        fillWithEmptyQuadsFromIndex, setDirty, setTexture, setQuads,
        drawNumberOfQuads, drawNumberOfQuadsFrom, drawQuads,
        getTotalQuads, getCapacity, precondOp] at hinv hpre ⊢ <;>
      first
      | omega
      | (simp only [List.length_append, List.length_take, List.length_drop,
          List.length_set, List.length_replicate, List.length_cons]
         omega)
      | (split_ifs <;>
          simp only [List.length_append, List.length_take, List.length_drop,
            List.length_set, List.length_replicate, List.length_cons] <;>
          omega)

theorem count_le_capacity_invariant_witness :
    (initWithTexture 0 4 : TextureAtlas Nat).countInv
      ∧ ((initWithTexture 0 4 : TextureAtlas Nat).applyOp
          (AtlasOp.insertQuad 9 0)).countInv :=
  ⟨(count_le_capacity_invariant 0 4 (initWithTexture 0 4)
      (AtlasOp.insertQuad 9 0)
      (by simp [countInv, getTotalQuads, getCapacity, initWithTexture])
      (by simp [precondOp, getTotalQuads, getCapacity, initWithTexture])).1,
    (count_le_capacity_invariant 0 4 (initWithTexture 0 4)
      (AtlasOp.insertQuad 9 0)
      (by simp [countInv, getTotalQuads, getCapacity, initWithTexture])
      (by simp [precondOp, getTotalQuads, getCapacity, initWithTexture])).2⟩

/-- Reference operation for C6, following the claim's words: extract the
`amount` quads at `oldIndex` from the live sequence, close the gap, and
reinsert them at `newIndex`. -/
def moveQuadsReference (l : List Q) (oldIndex amount newIndex : Nat) : List Q :=
  let run := (l.drop oldIndex).take amount
  let gapClosed := l.take oldIndex ++ l.drop (oldIndex + amount)
  gapClosed.take newIndex ++ run ++ gapClosed.drop newIndex

/-- A small concrete atlas used by witnesses: capacity 4, live quads
`[10, 20, 30]`, count 3. -/
def sampleAtlas : TextureAtlas Nat :=
  { texture := 1
    quads := [10, 20, 30, 0]
    gpuQuads := [0, 0, 0, 0]
    indexRuns := setupIndices (List.replicate 4 []) 4 0
    quadCount := 3
    dirty := false }

set_option maxHeartbeats 3200000 in
/-- C3: a successful `resizeCapacity(newCapacity)` gives the atlas
capacity `newCapacity`; with `newCapacity >= count` it preserves all
`count` existing quads bit-for-bit in the same relative order, and with
`newCapacity < count` the surviving quads are exactly the first
`newCapacity` of the original sequence and `count == newCapacity`
afterwards. -/
theorem resizeCapacity_copies_live_quads (a : TextureAtlas Q) (newCap : Nat)
    (hinv : a.getTotalQuads ≤ a.getCapacity) :
    ((a.resizeCapacity newCap true).1.getCapacity = newCap)
      ∧ (a.getTotalQuads ≤ newCap →
          (a.resizeCapacity newCap true).1.getTotalQuads = a.getTotalQuads
          ∧ (a.resizeCapacity newCap true).1.quads.take a.getTotalQuads
              = a.quads.take a.getTotalQuads)
      ∧ (newCap < a.getTotalQuads →
          (a.resizeCapacity newCap true).1.getTotalQuads = newCap
          ∧ (a.resizeCapacity newCap true).1.quads.take newCap
              = a.quads.take newCap) := by
  simp only [getTotalQuads, getCapacity] at hinv ⊢
  refine ⟨?_, fun h => ⟨?_, ?_⟩, fun h => ⟨?_, ?_⟩⟩
  · simp [resizeCapacity]
    omega
  · simp [resizeCapacity]
    omega
  · apply List.ext_getElem?
    intro k
    simp only [resizeCapacity, if_pos, List.getElem?_take, List.getElem?_append,
      List.getElem?_replicate, List.length_take, List.length_replicate]
    split_ifs <;> first | rfl | omega | (congr 1; omega)
  · simp [resizeCapacity]
    omega
  · apply List.ext_getElem?
    intro k
    simp only [resizeCapacity, if_pos, List.getElem?_take, List.getElem?_append,
      List.getElem?_replicate, List.length_take, List.length_replicate]
    split_ifs <;> first | rfl | omega | (congr 1; omega)

theorem resizeCapacity_copies_live_quads_witness :
    ((sampleAtlas.resizeCapacity 8 true).1.getTotalQuads
          = sampleAtlas.getTotalQuads
        ∧ (sampleAtlas.resizeCapacity 8 true).1.quads.take
            sampleAtlas.getTotalQuads
          = sampleAtlas.quads.take sampleAtlas.getTotalQuads)
      ∧ ((sampleAtlas.resizeCapacity 2 true).1.getTotalQuads = 2
        ∧ (sampleAtlas.resizeCapacity 2 true).1.quads.take 2
          = sampleAtlas.quads.take 2) :=
  ⟨(resizeCapacity_copies_live_quads sampleAtlas 8 (by decide)).2.1 (by decide),
    (resizeCapacity_copies_live_quads sampleAtlas 2 (by decide)).2.2 (by decide)⟩

set_option maxHeartbeats 3200000 in
/-- C5: with `count < capacity` and `index <= count`, `insertQuad(q,
index)` immediately followed by `removeQuadAtIndex(index)` restores the
prior quad sequence over `[0, count)` and restores the prior count. -/
theorem insertQuad_removeQuadAtIndex_roundtrip (a : TextureAtlas Q) (q : Q)
    (i : Nat) (h1 : i ≤ a.getTotalQuads) (h2 : a.getTotalQuads < a.getCapacity) :
    ((a.insertQuad q i).removeQuadAtIndex i).quads.take a.getTotalQuads
        = a.quads.take a.getTotalQuads
      ∧ ((a.insertQuad q i).removeQuadAtIndex i).getTotalQuads
        = a.getTotalQuads := by
  simp only [getTotalQuads, getCapacity] at h1 h2 ⊢
  constructor
  · apply List.ext_getElem?
    intro k
    simp only [insertQuad, removeQuadAtIndex, List.getElem?_take,
      List.getElem?_append, List.getElem?_drop, List.getElem?_cons,
      List.length_take, List.length_drop, List.length_append, List.length_cons]
    split_ifs <;> first | rfl | omega | (congr 1; omega)
  · simp [insertQuad, removeQuadAtIndex]

theorem insertQuad_removeQuadAtIndex_roundtrip_witness :
    ((sampleAtlas.insertQuad 99 1).removeQuadAtIndex 1).quads.take
          sampleAtlas.getTotalQuads
        = sampleAtlas.quads.take sampleAtlas.getTotalQuads
      ∧ ((sampleAtlas.insertQuad 99 1).removeQuadAtIndex 1).getTotalQuads
        = sampleAtlas.getTotalQuads :=
  insertQuad_removeQuadAtIndex_roundtrip sampleAtlas 99 1 (by decide) (by decide)

set_option maxHeartbeats 3200000 in
/-- C6: for `oldIndex`, `amount`, `newIndex` within the live range,
`moveQuadsFromIndex(oldIndex, amount, newIndex)` produces the same final
live quad sequence as the reference operation `moveQuadsReference` that
extracts the `amount` quads at `oldIndex`, closes the gap and reinserts
them at `newIndex`; the count is unchanged. -/
theorem moveQuadsFromIndex_matches_reference (a : TextureAtlas Q)
    (o am n : Nat) (h1 : o + am ≤ a.getTotalQuads)
    (h2 : n + am ≤ a.getTotalQuads) (hinv : a.getTotalQuads ≤ a.getCapacity) :
    (a.moveQuadsFromIndex o am n).quads.take a.getTotalQuads
        = moveQuadsReference (a.quads.take a.getTotalQuads) o am n
      ∧ (a.moveQuadsFromIndex o am n).getTotalQuads = a.getTotalQuads := by
  simp only [getTotalQuads, getCapacity] at h1 h2 hinv ⊢
  constructor
  · rcases Nat.lt_or_ge n o with hno | hno
    · simp only [moveQuadsFromIndex, if_pos hno, moveQuadsReference]
      apply List.ext_getElem?
      intro k
      simp only [List.getElem?_take, List.getElem?_append, List.getElem?_drop,
        List.length_take, List.length_drop, List.length_append]
      split_ifs <;> first | rfl | omega | (congr 1; omega)
    · simp only [moveQuadsFromIndex, if_neg (Nat.not_lt.mpr hno), moveQuadsReference]
      apply List.ext_getElem?
      intro k
      simp only [List.getElem?_take, List.getElem?_append, List.getElem?_drop,
        List.length_take, List.length_drop, List.length_append]
      split_ifs <;> first | rfl | omega | (congr 1; omega)
  · rw [moveQuadsFromIndex]
    split <;> rfl

theorem moveQuadsFromIndex_matches_reference_witness :
    (sampleAtlas.moveQuadsFromIndex 0 1 2).quads.take sampleAtlas.getTotalQuads
        = moveQuadsReference (sampleAtlas.quads.take sampleAtlas.getTotalQuads) 0 1 2
      ∧ (sampleAtlas.moveQuadsFromIndex 0 1 2).getTotalQuads
        = sampleAtlas.getTotalQuads :=
  moveQuadsFromIndex_matches_reference sampleAtlas 0 1 2 (by decide) (by decide)
    (by decide)

theorem removeQuadAtIndex_quads_length (a : TextureAtlas Q) (i : Nat)
    (h1 : i < a.quadCount) (h2 : a.quadCount ≤ a.quads.length) :
    (a.removeQuadAtIndex i).quads.length = a.quads.length := by
  simp only [removeQuadAtIndex, List.length_append, List.length_take,
    List.length_drop, List.length_cons]
  omega

set_option maxHeartbeats 1600000 in
theorem getElem?_removeQuadAtIndex (a : TextureAtlas Q) (i k : Nat)
    (h1 : i < a.quadCount) (h2 : a.quadCount ≤ a.quads.length) :
    (a.removeQuadAtIndex i).quads[k]?
      = if k < i then a.quads[k]?
        else if k < a.quadCount - 1 then a.quads[k + 1]?
        else if k = a.quadCount - 1 then some (default : Q)
        else a.quads[k]? := by
  simp only [removeQuadAtIndex, List.getElem?_take, List.getElem?_append,
    List.getElem?_drop, List.getElem?_cons, List.length_take, List.length_drop,
    List.length_append, List.length_cons]
  split_ifs <;> first | rfl | omega | (congr 1; omega)

set_option maxHeartbeats 1600000 in
theorem getElem?_insertQuad (a : TextureAtlas Q) (q : Q) (i k : Nat)
    (h1 : i ≤ a.quadCount) (h2 : a.quadCount < a.quads.length) :
    (a.insertQuad q i).quads[k]?
      = if k < i then a.quads[k]?
        else if k = i then some q
        else if k ≤ a.quadCount then a.quads[k - 1]?
        else a.quads[k]? := by
  simp only [insertQuad, List.getElem?_take, List.getElem?_append,
    List.getElem?_drop, List.getElem?_cons, List.length_take, List.length_drop,
    List.length_append, List.length_cons]
  split_ifs <;> first | rfl | omega | (congr 1; omega)

set_option maxHeartbeats 1600000 in
theorem getElem?_insertQuadFromIndex (a : TextureAtlas Q) (f n k : Nat)
    (h1 : f < a.quadCount) (h2 : n < a.quadCount)
    (h3 : a.quadCount ≤ a.quads.length) :
    (a.insertQuadFromIndex f n).quads[k]?
      = if k = n then some (a.quads.getD f default)
        else if f < n ∧ f ≤ k ∧ k < n then a.quads[k + 1]?
        else if n < f ∧ n < k ∧ k ≤ f then a.quads[k - 1]?
        else a.quads[k]? := by
  have hflen : f < a.quads.length := by omega
  have hgd : some (a.quads.getD f default) = a.quads[f]? := by
    simp [List.getD_eq_getElem?_getD, List.getElem?_eq_getElem hflen]
  rcases Nat.lt_trichotomy f n with hfn | rfl | hnf
  · simp only [insertQuadFromIndex, if_pos hfn, List.getElem?_take,
      List.getElem?_append, List.getElem?_drop, List.getElem?_cons,
      List.length_take, List.length_drop, List.length_append, List.length_cons]
    split_ifs <;>
      first | rfl | omega | (congr 1; omega) | (rw [hgd] <;> (congr 1 <;> omega))
  · simp only [insertQuadFromIndex, Nat.lt_irrefl, if_false, List.getElem?_take,
      List.getElem?_append, List.getElem?_drop, List.getElem?_cons,
      List.length_take, List.length_drop, List.length_append, List.length_cons]
    split_ifs <;>
      first | rfl | omega | (congr 1; omega) | (rw [hgd] <;> (congr 1 <;> omega))
  · simp only [insertQuadFromIndex, if_neg (Nat.lt_asymm hnf), if_pos hnf,
      List.getElem?_take, List.getElem?_append, List.getElem?_drop,
      List.getElem?_cons, List.length_take, List.length_drop,
      List.length_append, List.length_cons]
    split_ifs <;>
      first | rfl | omega | (congr 1; omega) | (rw [hgd] <;> (congr 1 <;> omega))

set_option maxHeartbeats 1600000 in
/-- C7: for `fromIndex` and `newIndex` within the live range,
`insertQuadFromIndex(fromIndex, newIndex)` yields the same final quad
storage as `removeQuadAtIndex(fromIndex)` followed by inserting the
removed quad at `newIndex`, with the count unchanged on both paths. -/
theorem insertQuadFromIndex_eq_remove_then_insert (a : TextureAtlas Q)
    (f n : Nat) (h1 : f < a.getTotalQuads) (h2 : n < a.getTotalQuads)
    (hinv : a.getTotalQuads ≤ a.getCapacity) :
    (a.insertQuadFromIndex f n).quads
        = ((a.removeQuadAtIndex f).insertQuad (a.quads.getD f default) n).quads
      ∧ (a.insertQuadFromIndex f n).getTotalQuads = a.getTotalQuads
      ∧ ((a.removeQuadAtIndex f).insertQuad
          (a.quads.getD f default) n).getTotalQuads = a.getTotalQuads := by
  simp only [getTotalQuads, getCapacity] at h1 h2 hinv ⊢
  have hflen : f < a.quads.length := by omega
  have hgd : some (a.quads.getD f default) = a.quads[f]? := by
    simp [List.getD_eq_getElem?_getD, List.getElem?_eq_getElem hflen]
  have hrc : (a.removeQuadAtIndex f).quadCount = a.quadCount - 1 := rfl
  have hrl : (a.removeQuadAtIndex f).quads.length = a.quads.length :=
    removeQuadAtIndex_quads_length a f h1 hinv
  refine ⟨?_, ?_, ?_⟩
  · apply List.ext_getElem?
    intro k
    rw [getElem?_insertQuadFromIndex a f n k h1 h2 hinv,
      getElem?_insertQuad (a.removeQuadAtIndex f) (a.quads.getD f default) n k
        (by omega) (by rw [hrc, hrl]; omega)]
    simp only [hrc, getElem?_removeQuadAtIndex a f _ h1 hinv]
    split_ifs <;>
      first | rfl | omega | (congr 1; omega) | (rw [hgd] <;> (congr 1 <;> omega))
  · rw [insertQuadFromIndex]
    split_ifs <;> rfl
  · simp only [insertQuad, hrc]
    omega

theorem insertQuadFromIndex_eq_remove_then_insert_witness :
    ((sampleAtlas.insertQuadFromIndex 0 2).quads
        = ((sampleAtlas.removeQuadAtIndex 0).insertQuad
            (sampleAtlas.quads.getD 0 default) 2).quads
      ∧ (sampleAtlas.insertQuadFromIndex 0 2).getTotalQuads
        = sampleAtlas.getTotalQuads
      ∧ ((sampleAtlas.removeQuadAtIndex 0).insertQuad
          (sampleAtlas.quads.getD 0 default) 2).getTotalQuads
        = sampleAtlas.getTotalQuads)
      ∧ (sampleAtlas.insertQuadFromIndex 0 2).quads.take 3 = [20, 30, 10] :=
  ⟨insertQuadFromIndex_eq_remove_then_insert sampleAtlas 0 2 (by decide)
      (by decide) (by decide), by decide⟩

/-- C8: in the atlas's step relation, `isDirty()` is true in the state
immediately after any mutating call, and false immediately after a draw
call that performed the upload (the flag was set and a nonzero number of
quads was drawn), with no intervening mutation. -/
theorem dirty_flag_protocol (a : TextureAtlas Q) (op : AtlasOp Q)
    (n start : Nat) :
    (isMutatingOp op = true → (a.applyOp op).isDirty = true)
      ∧ (a.isDirty = true → n ≠ 0 →
          (a.applyOp (AtlasOp.drawNumberOfQuadsFrom n start)).isDirty = false)
      ∧ (a.isDirty = true → n ≠ 0 →
          (a.applyOp (AtlasOp.drawNumberOfQuads n)).isDirty = false)
      ∧ (a.isDirty = true → a.getTotalQuads ≠ 0 →
          (a.applyOp AtlasOp.drawQuads).isDirty = false) := by
  refine ⟨?_, ?_, ?_, ?_⟩
  · intro hmut
    cases op <;>
      simp_all [isMutatingOp, applyOp, isDirty, updateQuad, insertQuad,
        insertQuads, insertQuadFromIndex, removeQuadAtIndex, removeQuadsAtIndex,
        resizeCapacity, moveQuadsFromIndex, moveQuadsFromIndexTail,
        fillWithEmptyQuadsFromIndex] <;>
      split_ifs <;> simp
  · intro hd hn
    simp [applyOp, drawNumberOfQuadsFrom, isDirty] at *
    simp [hn, hd]
  · intro hd hn
    simp [applyOp, drawNumberOfQuads, isDirty] at *
    simp [hn, hd]
  · intro hd hn
    simp [applyOp, drawQuads, drawNumberOfQuadsFrom, isDirty, getTotalQuads] at *
    simp [hn, hd]

theorem dirty_flag_protocol_witness :
    ((sampleAtlas.applyOp (AtlasOp.updateQuad 5 0)).isDirty = true)
      ∧ (((initWithTexture 1 4 : TextureAtlas Nat).applyOp
          (AtlasOp.drawNumberOfQuadsFrom 2 0)).isDirty = false) :=
  ⟨(dirty_flag_protocol sampleAtlas (AtlasOp.updateQuad 5 0) 2 0).1 rfl,
    (dirty_flag_protocol (initWithTexture 1 4) (AtlasOp.updateQuad 5 0) 2 0).2.1
      rfl (by decide)⟩

end TextureAtlas
